import Mathlib

/-!
Verification of the futures-NQ data-fetching repository.

The development shallowly embeds `src/futures_nq/data_fetcher.py`,
`src/futures_nq/main.py` and `src/futures_nq/config.py`.  Pandas data
frames become the `DataFrame` structure below (an optional index name, a
list of index values and a list of named columns), Python exceptions
become the `PyError` type threaded through `Except`, the vendor client
becomes a function parameter, and filesystem effects (os.makedirs,
DataFrame.to_csv writing a file) act on an explicit `FS` state.  Log
statements are collected in a list of `LogEntry`.
-/

/-- A scalar cell value of a data frame.  Databento timestamps
(`ts_event`) arrive as integer nanosecond epochs (`int`); `ts` marks a
value after `pd.to_datetime` parsing; numeric market data is modelled by
`int` and textual data by `str`. -/
inductive Value where
  | int : Int → Value
  | str : String → Value
  | ts : Int → Value
deriving DecidableEq

/-- Python exceptions relevant to this program.  `vendorError` stands for
whatever the Databento client raises; `keyError` is raised by pandas
column selection on missing columns; `fileNotFoundError` by
`os.makedirs` on an empty path; `valueError` by pandas (`reset_index`
name collisions, unparsable `to_datetime` input).  `retrievalError` and
`exportError` are modelled from the spec: the spec names a
`RetrievalError` and an `ExportError` class, but no code in the
repository defines or raises either; the constructors exist so that
statements about them can be expressed. -/
inductive PyError where
  | vendorError : String → PyError
  | keyError : List String → PyError
  | fileNotFoundError : String → PyError
  | valueError : String → PyError
  | retrievalError : String → PyError
  | exportError : String → PyError
deriving DecidableEq

/-- Whether an error is the spec's `RetrievalError`. -/
def PyError.isRetrievalError : PyError → Bool
  | .retrievalError _ => true
  | _ => false

/-- Whether an error is the spec's `ExportError`. -/
def PyError.isExportError : PyError → Bool
  | .exportError _ => true
  | _ => false

/-- Rendering of an exception as `str(e)` interpolates it into a log
message.  The exact Python text of built-in exceptions is abbreviated;
only its dependence on the wrapped data matters here. -/
def pyStr : PyError → String
  | .vendorError m => m
  | .keyError ms => "KeyError: " ++ String.intercalate ", " ms
  | .fileNotFoundError p => "[Errno 2] No such file or directory: " ++ p
  | .valueError m => m
  | .retrievalError m => "RetrievalError: " ++ m
  | .exportError m => "ExportError: " ++ m

/-- One record emitted through `logger`: a severity and a message. -/
structure LogEntry where
  level : String
  msg : String
deriving DecidableEq

/-- Builds a `logger.info` record. -/
def LogEntry.info (m : String) : LogEntry := { level := "INFO", msg := m }

/-- Builds a `logger.error` record. -/
def LogEntry.error (m : String) : LogEntry := { level := "ERROR", msg := m }

/-- A Python `datetime`: `isoStr` is `dt.isoformat()` (passed to the
vendor), `showStr` is `str(dt)` (interpolated into log messages),
`dateStr` is `str(dt.date())`, `epochNs` orders instants, and `tzAware`
records whether the value carries timezone information. -/
structure Datetime where
  isoStr : String
  showStr : String
  dateStr : String
  epochNs : Int
  tzAware : Bool
deriving DecidableEq

/-- A pandas `DataFrame`: an optional index name, the index values, and
the columns in order, each a name paired with its values. -/
structure DataFrame where
  indexName : Option String
  indexVals : List Value
  cols : List (String × List Value)
deriving DecidableEq

/-- The column names of a frame, in order (`df.columns`). -/
def DataFrame.colNames (df : DataFrame) : List String :=
  df.cols.map Prod.fst

/-- Membership test `name in df.columns`. -/
def DataFrame.hasCol (df : DataFrame) (n : String) : Bool :=
  df.colNames.contains n

/-- The values of the named column (`df[n]`); empty when absent. -/
def DataFrame.getCol (df : DataFrame) (n : String) : List Value :=
  match df.cols.find? (fun c => c.1 = n) with
  | some c => c.2
  | none => []

/-- `len(df)`: the number of rows, i.e. the length of the index. -/
def DataFrame.nrows (df : DataFrame) : Nat :=
  df.indexVals.length

/-- `df.set_index(n, inplace=True)`: the named column becomes the index
(the previous index is dropped) and is removed from the columns. -/
def DataFrame.set_index (df : DataFrame) (n : String) : DataFrame :=
  { indexName := some n
    indexVals := df.getCol n
    cols := df.cols.filter (fun c => ¬ c.1 = n) }

/-- `df[ns]` for a list of labels: raises `KeyError` when any label is
missing, otherwise keeps exactly the requested columns in the requested
order. -/
def DataFrame.selectCols (df : DataFrame) (ns : List String) :
    Except PyError DataFrame :=
  let missing := ns.filter (fun n => ¬ df.hasCol n)
  if missing.isEmpty then
    Except.ok { df with cols := ns.map (fun n => (n, df.getCol n)) }
  else
    Except.error (PyError.keyError missing)

/-- `pd.to_datetime` on one value: integer nanosecond epochs parse to a
timestamp, already-parsed timestamps pass through, and anything else
raises. -/
def pdToDatetimeVal : Value → Except PyError Value
  | .int n => Except.ok (.ts n)
  | .ts n => Except.ok (.ts n)
  | .str s => Except.error (.valueError ("could not parse " ++ s))

/-- `df.index = pd.to_datetime(df.index)`: every index value is parsed;
the index name and the columns are untouched. -/
def DataFrame.parseIndex (df : DataFrame) : Except PyError DataFrame :=
  match df.indexVals.mapM pdToDatetimeVal with
  | Except.ok newIdx => Except.ok { df with indexVals := newIdx }
  | Except.error e => Except.error e

/-- `df.reset_index()`: the index is inserted as the first column under
its name (defaulting to "index" when unnamed) and replaced by a fresh
range index.  Pandas raises `ValueError` when a column of that name
already exists. -/
def DataFrame.reset_index (df : DataFrame) : Except PyError DataFrame :=
  let n := df.indexName.getD "index"
  if df.hasCol n then
    Except.error (PyError.valueError ("cannot insert " ++ n ++ ", already exists"))
  else
    Except.ok
      { indexName := none
        indexVals := (List.range df.nrows).map (fun i => Value.int i)
        cols := (n, df.indexVals) :: df.cols }

/-- `df.rename(columns={old: new}, inplace=True)`: every column whose
name is `old` is renamed to `new`. -/
def DataFrame.renameCol (df : DataFrame) (old new : String) : DataFrame :=
  { df with cols := df.cols.map (fun c => if c.1 = old then (new, c.2) else c) }

/-- Rendering of a cell for CSV output.  The textual form of parsed
timestamps is abstracted; no claim inspects it. -/
def showValue : Value → String
  | .int n => toString n
  | .str s => s
  | .ts n => "@" ++ toString n

/-- Comma-delimited output of `to_csv`: the header row followed by the
data rows, each cell already rendered to text. -/
structure Csv where
  header : List String
  rows : List (List String)
deriving DecidableEq

/-- `df.to_csv(..., index=False)`: the header lists the column names;
the index is not written. -/
def DataFrame.to_csv_noindex (df : DataFrame) : Csv :=
  { header := df.colNames
    rows := (List.range df.nrows).map
      (fun i => df.cols.map (fun c => showValue (c.2.getD i (Value.str "")))) }

/-- `df.to_csv()` with the default `index=True`: the first header cell
is the index name (empty when unnamed) and each row starts with the
rendered index value. -/
def DataFrame.to_csv_withindex (df : DataFrame) : Csv :=
  { header := (df.indexName.getD "") :: df.colNames
    rows := (List.range df.nrows).map
      (fun i => showValue (df.indexVals.getD i (Value.str "")) ::
        df.cols.map (fun c => showValue (c.2.getD i (Value.str "")))) }

/-- Whether the second character list is an initial segment of the
first. -/
def startsWithChars : List Char → List Char → Bool
  | _, [] => true
  | [], _ :: _ => false
  | h :: hs, p :: ps => h = p && startsWithChars hs ps

/-- Whether the second character list occurs contiguously inside the
first. -/
def containsChars : List Char → List Char → Bool
  | [], pat => pat.isEmpty
  | h :: rest, pat => startsWithChars (h :: rest) pat || containsChars rest pat

/-- Whether `sub` occurs as a contiguous substring of `s` (used to state
facts about log-message contents). -/
def strContains (s sub : String) : Bool :=
  containsChars s.toList sub.toList

/-- The characters of `p` up to and including its last slash; empty when
`p` has no slash. -/
def headUpToLastSlash (cs : List Char) : List Char :=
  ((cs.reverse.dropWhile (fun c => ¬ c = '/'))).reverse

/-- Whether every character is a slash. -/
def allSlashes (cs : List Char) : Bool :=
  cs.all (fun c => c = '/')

/-- Removal of trailing slashes. -/
def dropTrailingSlashes (cs : List Char) : List Char :=
  (cs.reverse.dropWhile (fun c => c = '/')).reverse

/-- `os.path.dirname` for POSIX paths: the part before the last slash
(trailing slashes stripped unless the head is all slashes); the empty
string when the path has no directory component. -/
def dirname (p : String) : String :=
  let head := headUpToLastSlash p.toList
  if head.isEmpty || allSlashes head then String.mk head
  else String.mk (dropTrailingSlashes head)

/-- The directory and its chain of parents, innermost first (the set of
directories `os.makedirs` ensures exist).  Fuel-bounded recursion on
`dirname`, which never lengthens a path. -/
def ancestorsAux : Nat → String → List String
  | 0, _ => []
  | fuel + 1, p =>
    if p = "" then []
    else if dirname p = p then [p]
    else p :: ancestorsAux fuel (dirname p)

/-- All directories created by `os.makedirs p`. -/
def ancestors (p : String) : List String :=
  ancestorsAux (p.length + 1) p

/-- The filesystem state: the set of existing directories and the files
with their contents. -/
structure FS where
  dirs : List String
  files : List (String × Csv)
deriving DecidableEq

/-- `os.makedirs(path, exist_ok=True)`: raises `FileNotFoundError` on
the empty path (as CPython does, `exist_ok` notwithstanding), otherwise
ensures the directory and all its parents exist. -/
def makedirs (fs : FS) (path : String) : Except PyError FS :=
  if path = "" then
    Except.error (PyError.fileNotFoundError "")
  else
    Except.ok { fs with
      dirs := fs.dirs ++ (ancestors path).filter (fun d => ¬ fs.dirs.contains d) }

/-- Writing a file: an existing file at the path is overwritten. -/
def FS.writeFile (fs : FS) (p : String) (c : Csv) : FS :=
  { fs with files := (p, c) :: fs.files.filter (fun f => ¬ f.1 = p) }

/-- Reading a file back, `none` when absent. -/
def FS.readFile (fs : FS) (p : String) : Option Csv :=
  (fs.files.find? (fun f => f.1 = p)).map Prod.snd

/-- Configuration constant `SYMBOL` from `config.py`. -/
def SYMBOL : String := "NQM5"

/-- Configuration constant `OUTPUT_DIR` from `config.py`. -/
def OUTPUT_DIR : String := "data"

/-- Configuration constant `OUTPUT_FILE` from `config.py`. -/
def OUTPUT_FILE : String := OUTPUT_DIR ++ "/nq_futures_data.csv"

/-- Configuration constant `DEFAULT_START_TIME` from `config.py`:
`datetime(2025, 3, 21, tzinfo=timezone.utc)`. -/
def DEFAULT_START_TIME : Datetime :=
  { isoStr := "2025-03-21T00:00:00+00:00"
    showStr := "2025-03-21 00:00:00+00:00"
    dateStr := "2025-03-21"
    epochNs := 1742515200000000000
    tzAware := true }

/-- Configuration constant `DEFAULT_END_TIME` from `config.py`:
`datetime(2025, 3, 22, tzinfo=timezone.utc)`. -/
def DEFAULT_END_TIME : Datetime :=
  { isoStr := "2025-03-22T00:00:00+00:00"
    showStr := "2025-03-22 00:00:00+00:00"
    dateStr := "2025-03-22"
    epochNs := 1742601600000000000
    tzAware := true }

/-- The five-column OHLCV selection `keep_cols` from
`NQDataFetcher.fetch_data`. -/
def keep_cols : List String := ["open", "high", "low", "close", "volume"]

/-- A vendor call: `client.timeseries.get_range` (or
`client.metadata.get_definition`) already specialised to the configured
dataset, symbol and schema, taking the two time arguments the Python
code passes and either returning a frame (`data.to_df()` /
`pd.DataFrame(data)` applied) or raising. -/
def Vendor : Type := String → String → Except PyError DataFrame

/-- `NQDataFetcher.fetch_data`: logs the request, calls the vendor with
ISO-formatted bounds, conditionally promotes `ts_event` to the index,
keeps exactly the OHLCV columns, parses the index, and logs success; any
exception is logged (`Error fetching OHLCV data: ...`) and re-raised
unchanged. -/
def fetch_data (vendor : Vendor) (start_time end_time : Datetime) :
    Except PyError DataFrame × List LogEntry :=
  let log0 := [LogEntry.info ("Fetching " ++ SYMBOL ++ " OHLCV data from " ++
    start_time.showStr ++ " to " ++ end_time.showStr)]
  let failLog := fun (e : PyError) =>
    LogEntry.error ("Error fetching OHLCV data: " ++ pyStr e)
  match vendor start_time.isoStr end_time.isoStr with
  | Except.error e => (Except.error e, log0 ++ [failLog e])
  | Except.ok data =>
    let df := if data.hasCol "ts_event" then data.set_index "ts_event" else data
    match df.selectCols keep_cols with
    | Except.error e => (Except.error e, log0 ++ [failLog e])
    | Except.ok df1 =>
      match df1.parseIndex with
      | Except.error e => (Except.error e, log0 ++ [failLog e])
      | Except.ok df2 =>
        (Except.ok df2, log0 ++
          [LogEntry.info ("Successfully fetched " ++ toString df2.nrows ++
            " OHLCV records")])

/-- `NQDataFetcher.fetch_statistics`: calls
`client.metadata.get_definition` with calendar dates and wraps the
result in a frame without any reshaping; any exception is logged
(`Error fetching statistics data: ...`) and re-raised unchanged. -/
def fetch_statistics (vendor : Vendor) (start_time end_time : Datetime) :
    Except PyError DataFrame × List LogEntry :=
  let log0 := [LogEntry.info ("Fetching " ++ SYMBOL ++ " statistics from " ++
    start_time.showStr ++ " to " ++ end_time.showStr)]
  match vendor start_time.dateStr end_time.dateStr with
  | Except.error e =>
    (Except.error e,
      log0 ++ [LogEntry.error ("Error fetching statistics data: " ++ pyStr e)])
  | Except.ok df =>
    (Except.ok df, log0 ++ [LogEntry.info "Successfully fetched statistics records"])

/-- `NQDataFetcher.fetch_trades`: like `fetch_data` but on the trades
schema and with no column selection: the conditional `ts_event` index
promotion and the index parsing are the only transformations; any
exception is logged (`Error fetching trades data: ...`) and re-raised
unchanged. -/
def fetch_trades (vendor : Vendor) (start_time end_time : Datetime) :
    Except PyError DataFrame × List LogEntry :=
  let log0 := [LogEntry.info ("Fetching " ++ SYMBOL ++ " trades from " ++
    start_time.showStr ++ " to " ++ end_time.showStr)]
  let failLog := fun (e : PyError) =>
    LogEntry.error ("Error fetching trades data: " ++ pyStr e)
  match vendor start_time.isoStr end_time.isoStr with
  | Except.error e => (Except.error e, log0 ++ [failLog e])
  | Except.ok data =>
    let df := if data.hasCol "ts_event" then data.set_index "ts_event" else data
    match df.parseIndex with
    | Except.error e => (Except.error e, log0 ++ [failLog e])
    | Except.ok df1 =>
      (Except.ok df1, log0 ++
        [LogEntry.info ("Successfully fetched " ++ toString df1.nrows ++
          " trade records")])

/-- `NQDataFetcher.fetch_mbp10`: identical pipeline to `fetch_trades`
on the MBP-10 schema; any exception is logged
(`Error fetching MBP-10 data: ...`) and re-raised unchanged. -/
def fetch_mbp10 (vendor : Vendor) (start_time end_time : Datetime) :
    Except PyError DataFrame × List LogEntry :=
  let log0 := [LogEntry.info ("Fetching " ++ SYMBOL ++ " MBP-10 data from " ++
    start_time.showStr ++ " to " ++ end_time.showStr)]
  let failLog := fun (e : PyError) =>
    LogEntry.error ("Error fetching MBP-10 data: " ++ pyStr e)
  match vendor start_time.isoStr end_time.isoStr with
  | Except.error e => (Except.error e, log0 ++ [failLog e])
  | Except.ok data =>
    let df := if data.hasCol "ts_event" then data.set_index "ts_event" else data
    match df.parseIndex with
    | Except.error e => (Except.error e, log0 ++ [failLog e])
    | Except.ok df1 =>
      (Except.ok df1, log0 ++
        [LogEntry.info ("Successfully fetched " ++ toString df1.nrows ++
          " MBP-10 records")])

/-- `NQDataFetcher.save_to_csv`: ensures the parent directory of the
target exists via `os.makedirs(os.path.dirname(filepath), exist_ok=True)`,
resets the index into a column, renames it to "timestamp" when the
first column is `ts_event`, and writes the CSV without the range index;
any exception is logged (`Error saving data to CSV: ...`) and re-raised
unchanged. -/
def save_to_csv (fs : FS) (df : DataFrame) (filepath : String) :
    Except PyError FS × List LogEntry :=
  let failLog := fun (e : PyError) =>
    LogEntry.error ("Error saving data to CSV: " ++ pyStr e)
  match makedirs fs (dirname filepath) with
  | Except.error e => (Except.error e, [failLog e])
  | Except.ok fs1 =>
    match df.reset_index with
    | Except.error e => (Except.error e, [failLog e])
    | Except.ok df1 =>
      let df2 :=
        if df1.colNames.head? = some "ts_event" then
          df1.renameCol "ts_event" "timestamp"
        else df1
      (Except.ok (fs1.writeFile filepath df2.to_csv_noindex),
        [LogEntry.info ("Data saved to " ++ filepath)])

/-- The download control of `run_streamlit` on a displayed result: the
file name embeds the selected dates
(`f"nq_futures_data_{start_date}_{end_date}.csv"`) and the content is
`df.to_csv()` with pandas defaults, index included. -/
def streamlitDownload (df : DataFrame) (start_date end_date : String) :
    String × Csv :=
  ("nq_futures_data_" ++ start_date ++ "_" ++ end_date ++ ".csv",
    df.to_csv_withindex)

/-- The observable outcome of `run_cli`: the final filesystem, the
process exit code, what was printed to stdout, and the log records. -/
structure CliResult where
  fs : FS
  exitCode : Nat
  stdout : List String
  logs : List LogEntry
deriving DecidableEq

/-- `run_cli` from `main.py`: fetches the default window, saves to
`OUTPUT_FILE` when rows came back, prints a no-data message otherwise;
any exception is logged (`Error in CLI mode: ...`) and turns into
`sys.exit(1)`; the non-exception paths end the process with exit
code 0. -/
def run_cli (vendor : Vendor) (fs : FS) : CliResult :=
  match fetch_data vendor DEFAULT_START_TIME DEFAULT_END_TIME with
  | (Except.error e, lg) =>
    { fs := fs, exitCode := 1, stdout := []
      logs := lg ++ [LogEntry.error ("Error in CLI mode: " ++ pyStr e)] }
  | (Except.ok df, lg) =>
    if 0 < df.nrows then
      match save_to_csv fs df OUTPUT_FILE with
      | (Except.error e, lg2) =>
        { fs := fs, exitCode := 1, stdout := []
          logs := lg ++ lg2 ++ [LogEntry.error ("Error in CLI mode: " ++ pyStr e)] }
      | (Except.ok fs2, lg2) =>
        { fs := fs2, exitCode := 0
          stdout := ["Data successfully saved to " ++ OUTPUT_FILE]
          logs := lg ++ lg2 }
    else
      { fs := fs, exitCode := 0
        stdout := ["No data available for the specified date range."]
        logs := lg }

instance {ε α : Type} [DecidableEq ε] [DecidableEq α] : DecidableEq (Except ε α) :=
  fun a b =>
    match a, b with
    | Except.ok x, Except.ok y =>
      if h : x = y then isTrue (by rw [h])
      else isFalse (by intro hh; cases hh; exact h rfl)
    | Except.error x, Except.error y =>
      if h : x = y then isTrue (by rw [h])
      else isFalse (by intro hh; cases hh; exact h rfl)
    | Except.ok _, Except.error _ => isFalse (by intro hh; cases hh)
    | Except.error _, Except.ok _ => isFalse (by intro hh; cases hh)

theorem selectCols_ok_colNames {df df' : DataFrame} {ns : List String}
    (h : df.selectCols ns = Except.ok df') : df'.colNames = ns := by
  simp only [DataFrame.selectCols] at h
  split at h
  · cases h
    simp [DataFrame.colNames, List.map_map, Function.comp_def]
  · cases h

theorem selectCols_ok_index {df df' : DataFrame} {ns : List String}
    (h : df.selectCols ns = Except.ok df') :
    df'.indexVals = df.indexVals ∧ df'.indexName = df.indexName := by
  simp only [DataFrame.selectCols] at h
  split at h
  · cases h; exact ⟨rfl, rfl⟩
  · cases h

theorem selectCols_ok_hasCol {df df' : DataFrame} {ns : List String}
    (h : df.selectCols ns = Except.ok df') :
    ∀ n ∈ ns, df.hasCol n = true := by
  simp only [DataFrame.selectCols] at h
  split at h
  · rename_i hempty
    intro n hn
    rw [List.isEmpty_iff] at hempty
    by_contra hcol
    have hmem : n ∈ ns.filter (fun m => ¬ df.hasCol m) := by
      rw [List.mem_filter]
      refine ⟨hn, ?_⟩
      simp only [Bool.not_eq_true] at hcol
      simp [hcol]
    rw [hempty] at hmem
    cases hmem
  · cases h

theorem selectCols_missing {df : DataFrame} {ns : List String}
    (h : ¬ ns.filter (fun n => ¬ df.hasCol n) = []) :
    df.selectCols ns =
      Except.error (PyError.keyError (ns.filter (fun n => ¬ df.hasCol n))) := by
  simp only [DataFrame.selectCols]
  split
  · rename_i hempty
    rw [List.isEmpty_iff] at hempty
    exact absurd hempty h
  · rfl

theorem parseIndex_ok {df df' : DataFrame}
    (h : df.parseIndex = Except.ok df') :
    df'.cols = df.cols ∧ df'.indexName = df.indexName ∧
      df.indexVals.mapM pdToDatetimeVal = Except.ok df'.indexVals := by
  unfold DataFrame.parseIndex at h
  split at h
  · rename_i newIdx hmap
    cases h
    exact ⟨rfl, rfl, hmap⟩
  · cases h

theorem set_index_hasCol {df : DataFrame} {n k : String} (hk : ¬ k = n) :
    (df.set_index n).hasCol k = df.hasCol k := by
  simp only [DataFrame.hasCol, DataFrame.set_index, DataFrame.colNames]
  rw [Bool.eq_iff_iff]
  simp only [List.contains, List.elem_iff, List.mem_map, List.mem_filter,
    decide_eq_true_eq]
  constructor
  · rintro ⟨c, ⟨hc, -⟩, hck⟩
    exact ⟨c, hc, hck⟩
  · rintro ⟨c, hc, hck⟩
    exact ⟨c, ⟨hc, by rw [hck]; exact hk⟩, hck⟩

theorem hasCol_false_names {df : DataFrame} {n : String}
    (h : df.hasCol n = false) : ∀ c ∈ df.cols, ¬ c.1 = n := by
  intro c hc hceq
  have hm : (df.cols.map Prod.fst).contains n = true :=
    List.elem_eq_true_of_mem (List.mem_map.mpr ⟨c, hc, hceq⟩)
  simp only [DataFrame.hasCol, DataFrame.colNames] at h
  rw [h] at hm
  cases hm

theorem renameMap_no_match {l : List (String × List Value)} {old new : String}
    (hmem : ∀ c ∈ l, ¬ c.1 = old) :
    l.map (fun c => if c.1 = old then (new, c.2) else c) = l := by
  have := List.map_congr_left (f := fun c => if c.1 = old then (new, c.2) else c)
    (g := id) (fun c hc => by simp only []; rw [if_neg (hmem c hc)]; rfl)
  rw [this, List.map_id]

theorem renameCol_no_match {df : DataFrame} {old new : String}
    (h : df.hasCol old = false) : df.renameCol old new = df := by
  unfold DataFrame.renameCol
  rw [renameMap_no_match (hasCol_false_names h)]

theorem makedirs_error {fs : FS} {p : String} {e : PyError}
    (h : makedirs fs p = Except.error e) :
    e = PyError.fileNotFoundError "" ∧ p = "" := by
  unfold makedirs at h
  split at h
  · rename_i hp
    cases h
    exact ⟨rfl, hp⟩
  · cases h

theorem makedirs_ok {fs fs' : FS} {p : String}
    (h : makedirs fs p = Except.ok fs') :
    ¬ p = "" ∧
      fs'.dirs = fs.dirs ++ (ancestors p).filter (fun d => ¬ fs.dirs.contains d) ∧
      fs'.files = fs.files := by
  unfold makedirs at h
  split at h
  · cases h
  · rename_i hp
    cases h
    exact ⟨hp, rfl, rfl⟩

theorem reset_index_ok {df df1 : DataFrame}
    (h : df.reset_index = Except.ok df1) :
    df.hasCol (df.indexName.getD "index") = false ∧
    df1.cols = (df.indexName.getD "index", df.indexVals) :: df.cols := by
  simp only [DataFrame.reset_index] at h
  split at h
  · cases h
  · rename_i hcol
    cases h
    refine ⟨?_, rfl⟩
    simpa using hcol

theorem reset_index_error {df : DataFrame} {e : PyError}
    (h : df.reset_index = Except.error e) :
    e = PyError.valueError
      ("cannot insert " ++ df.indexName.getD "index" ++ ", already exists") := by
  simp only [DataFrame.reset_index] at h
  split at h
  · cases h
    rfl
  · cases h

theorem writeFile_readFile (fs : FS) (p : String) (c : Csv) :
    (fs.writeFile p c).readFile p = some c := by
  simp only [FS.writeFile, FS.readFile]
  rw [List.find?_cons_of_pos]
  · rfl
  · simp

theorem makedirs_ok_ancestors {fs fs' : FS} {p : String}
    (h : makedirs fs p = Except.ok fs') :
    ∀ d ∈ ancestors p, fs'.dirs.contains d = true := by
  obtain ⟨-, hdirs, -⟩ := makedirs_ok h
  intro d hd
  apply List.elem_eq_true_of_mem
  rw [hdirs]
  by_cases hin : fs.dirs.contains d = true
  · exact List.mem_append_left _ (List.elem_iff.mp hin)
  · refine List.mem_append_right _ ?_
    rw [List.mem_filter]
    refine ⟨hd, ?_⟩
    simp only [decide_eq_true_eq]
    intro hmem
    exact hin hmem

/-- The empty filesystem, the starting state of the scenarios below. -/
def fs0 : FS := { dirs := [], files := [] }

/-- A one-row OHLCV result as `fetch_data` returns it: indexed by the
parsed `ts_event` timestamp with exactly the five retained columns. -/
def dfOhlcvRow : DataFrame :=
  { indexName := some "ts_event"
    indexVals := [Value.ts 1742545800000000000]
    cols := [("open", [Value.int 20100]), ("high", [Value.int 20200]),
             ("low", [Value.int 20000]), ("close", [Value.int 20150]),
             ("volume", [Value.int 1200])] }

/-- C5 (amended): when directory creation or any later step of
`save_to_csv` fails, the operation logs `Error saving data to CSV:` with
the exception text and re-raises the original exception unchanged; no
`ExportError` wrapper exists in the code, so the surfaced error is never
one. -/
theorem save_to_csv_error_unwrapped (fs : FS) (df : DataFrame) (fp : String)
    (err : PyError) (lg : List LogEntry)
    (h : save_to_csv fs df fp = (Except.error err, lg)) :
    lg = [LogEntry.error ("Error saving data to CSV: " ++ pyStr err)] ∧
    err.isExportError = false := by
  simp only [save_to_csv] at h
  split at h
  · rename_i e hmk
    obtain ⟨he, -⟩ := makedirs_error hmk
    obtain ⟨h1, h2⟩ := Prod.mk.injEq .. ▸ h
    cases h1
    subst he
    exact ⟨h2.symm, rfl⟩
  · rename_i fs1 hmk
    split at h
    · rename_i e hri
      have he := reset_index_error hri
      obtain ⟨h1, h2⟩ := Prod.mk.injEq .. ▸ h
      cases h1
      subst he
      exact ⟨h2.symm, rfl⟩
    · obtain ⟨h1, -⟩ := Prod.mk.injEq .. ▸ h
      cases h1

/-- Witness for C5's amended theorem at the concrete failing input
`save_to_csv fs0 dfOhlcvRow "out.csv"`. -/
theorem save_to_csv_error_unwrapped_witness :
    [LogEntry.error ("Error saving data to CSV: " ++
        pyStr (PyError.fileNotFoundError ""))] =
      [LogEntry.error ("Error saving data to CSV: " ++
        pyStr (PyError.fileNotFoundError ""))] ∧
    (PyError.fileNotFoundError "").isExportError = false :=
  save_to_csv_error_unwrapped fs0 dfOhlcvRow "out.csv"
    (PyError.fileNotFoundError "")
    [LogEntry.error ("Error saving data to CSV: " ++
      pyStr (PyError.fileNotFoundError ""))]
    (by decide)

/-- Counterexample to C5 as stated: at `save_to_csv fs0 dfOhlcvRow
"out.csv"` the directory-creation step fails and the surfaced error is
the original `FileNotFoundError`, not an `ExportError`. -/
theorem save_to_csv_no_export_error_cex :
    save_to_csv fs0 dfOhlcvRow "out.csv" =
      (Except.error (PyError.fileNotFoundError ""),
       [LogEntry.error ("Error saving data to CSV: " ++
         pyStr (PyError.fileNotFoundError ""))]) ∧
    (PyError.fileNotFoundError "").isExportError = false := by
  decide

/-- C9: a filepath with no directory component makes `save_to_csv`
fail: `os.path.dirname "out.csv"` is the empty string, on which
`os.makedirs` raises even with `exist_ok=True`, while the file write
itself would have succeeded in the current directory. -/
theorem save_to_csv_bare_filename_precondition (fs : FS) (df : DataFrame)
    (c : Csv) :
    dirname "out.csv" = "" ∧
    (save_to_csv fs df "out.csv").1 =
      Except.error (PyError.fileNotFoundError "") ∧
    (fs.writeFile "out.csv" c).readFile "out.csv" = some c := by
  have hd : dirname "out.csv" = "" := by decide
  refine ⟨hd, ?_, writeFile_readFile fs "out.csv" c⟩
  simp [save_to_csv, hd, makedirs]

/-- C3: for a result whose index is the canonical `ts_event` index, a
successful `save_to_csv` writes a file whose header renames that first
column to "timestamp" and then lists exactly the result's columns, in
order. -/
theorem export_header_timestamp (fs fs2 : FS) (df : DataFrame) (fp : String)
    (lg : List LogEntry)
    (hidx : df.indexName = some "ts_event")
    (h : save_to_csv fs df fp = (Except.ok fs2, lg)) :
    Option.map Csv.header (fs2.readFile fp) =
      some ("timestamp" :: df.colNames) := by
  simp only [save_to_csv] at h
  split at h
  · cases (Prod.mk.injEq .. ▸ h).1
  · rename_i fs1 hmk
    split at h
    · cases (Prod.mk.injEq .. ▸ h).1
    · rename_i df1 hri
      obtain ⟨hnocol, hcols⟩ := reset_index_ok hri
      rw [hidx] at hnocol hcols
      have hnocol2 : df.hasCol "ts_event" = false := hnocol
      have hcols2 : df1.cols = ("ts_event", df.indexVals) :: df.cols := hcols
      have hhead : df1.colNames.head? = some "ts_event" := by
        simp only [DataFrame.colNames, hcols2, List.map_cons, List.head?_cons]
      rw [if_pos hhead] at h
      obtain ⟨h1, -⟩ := Prod.mk.injEq .. ▸ h
      injection h1 with hfs
      subst hfs
      rw [writeFile_readFile, Option.map_some']
      congr 1
      show (df1.renameCol "ts_event" "timestamp").colNames = _
      simp only [DataFrame.renameCol, DataFrame.colNames, hcols2, List.map_cons,
        if_pos rfl]
      rw [renameMap_no_match (hasCol_false_names hnocol2)]
      simp

/-- The CSV that exporting `dfOhlcvRow` produces. -/
def csvExported : Csv :=
  { header := ["timestamp", "open", "high", "low", "close", "volume"]
    rows := [["@1742545800000000000", "20100", "20200", "20000",
      "20150", "1200"]] }

/-- The filesystem after exporting `dfOhlcvRow` to `OUTPUT_FILE` from
the empty filesystem. -/
def fsExported : FS :=
  { dirs := ["data"], files := [("data/nq_futures_data.csv", csvExported)] }

/-- Witness for C3 at the fixture `dfOhlcvRow` exported to
`OUTPUT_FILE` from the empty filesystem. -/
theorem export_header_timestamp_witness :
    Option.map Csv.header (FS.readFile fsExported OUTPUT_FILE) =
      some ("timestamp" :: dfOhlcvRow.colNames) :=
  export_header_timestamp fs0 fsExported dfOhlcvRow OUTPUT_FILE
    [LogEntry.info ("Data saved to " ++ OUTPUT_FILE)] rfl (by decide)

/-- Observer of an export attempt: the filesystem after a successful
`save_to_csv`, `none` when it raised. -/
def exportOutcome (fs : FS) (df : DataFrame) (fp : String) : Option FS :=
  match (save_to_csv fs df fp).1 with
  | Except.ok fs2 => some fs2
  | Except.error _ => none

/-- C7 (amended): a successful export has created the parent-directory
chain, and repeating the same export from the resulting state succeeds
again and overwrites, leaving the same file content; the amendment
conditions on the first call succeeding because a filepath without a
directory component (see the counterexample) already makes the first
call raise. -/
theorem export_idempotent (fs fs1 : FS) (df : DataFrame) (fp : String)
    (lg1 : List LogEntry)
    (h1 : save_to_csv fs df fp = (Except.ok fs1, lg1)) :
    ((ancestors (dirname fp)).all (fun d => fs1.dirs.contains d)) = true ∧
    Option.map (fun fsx => FS.readFile fsx fp) (exportOutcome fs1 df fp) =
      some (fs1.readFile fp) ∧
    ¬ fs1.readFile fp = none := by
  simp only [save_to_csv] at h1
  split at h1
  · cases (Prod.mk.injEq .. ▸ h1).1
  · rename_i fs1a hmk
    split at h1
    · cases (Prod.mk.injEq .. ▸ h1).1
    · rename_i df1 hri
      obtain ⟨h1a, -⟩ := Prod.mk.injEq .. ▸ h1
      injection h1a with hfs
      subst hfs
      have hanc : ∀ d ∈ ancestors (dirname fp),
          (fs1a.writeFile fp (if df1.colNames.head? = some "ts_event" then
            df1.renameCol "ts_event" "timestamp" else df1).to_csv_noindex).dirs.contains d
            = true := by
        intro d hd
        exact makedirs_ok_ancestors hmk d hd
      have hmk2 : makedirs
          (fs1a.writeFile fp (if df1.colNames.head? = some "ts_event" then
            df1.renameCol "ts_event" "timestamp" else df1).to_csv_noindex)
          (dirname fp) =
          Except.ok (fs1a.writeFile fp (if df1.colNames.head? = some "ts_event" then
            df1.renameCol "ts_event" "timestamp" else df1).to_csv_noindex) := by
        unfold makedirs
        rw [if_neg (makedirs_ok hmk).1]
        congr 1
        have hfil : (ancestors (dirname fp)).filter
            (fun d => ¬ (fs1a.writeFile fp (if df1.colNames.head? = some "ts_event" then
              df1.renameCol "ts_event" "timestamp" else df1).to_csv_noindex).dirs.contains d)
            = [] := by
          rw [List.filter_eq_nil_iff]
          intro d hd
          simp only [decide_eq_true_eq]
          exact not_not_intro (hanc d hd)
        rw [hfil, List.append_nil]
      refine ⟨?_, ?_, ?_⟩
      · rw [List.all_eq_true]
        intro d hd
        exact hanc d hd
      · simp only [exportOutcome, save_to_csv, hmk2, hri]
        rw [Option.map_some', writeFile_readFile, writeFile_readFile]
      · rw [writeFile_readFile]
        simp

/-- Witness for C7's amended theorem: exporting `dfOhlcvRow` to
`OUTPUT_FILE` once from the empty filesystem, then again from the
resulting state. -/
theorem export_idempotent_witness :
    ((ancestors (dirname OUTPUT_FILE)).all
      (fun d => fsExported.dirs.contains d)) = true ∧
    Option.map (fun fsx => FS.readFile fsx OUTPUT_FILE)
        (exportOutcome fsExported dfOhlcvRow OUTPUT_FILE) =
      some (fsExported.readFile OUTPUT_FILE) ∧
    ¬ fsExported.readFile OUTPUT_FILE = none :=
  export_idempotent fs0 fsExported dfOhlcvRow OUTPUT_FILE
    [LogEntry.info ("Data saved to " ++ OUTPUT_FILE)] (by decide)

/-- Counterexample to C7 as stated over every filepath: with the
parent-directory-free filepath "out.csv" already the first export
raises, so calling export twice does not succeed both times. -/
theorem export_idempotent_cex :
    (save_to_csv fs0 dfOhlcvRow "out.csv").1 =
      Except.error (PyError.fileNotFoundError "") ∧
    exportOutcome fs0 dfOhlcvRow "out.csv" = none := by
  decide

/-- C1 (amended): when the vendor call raises, each fetch operation
returns no result and re-raises the original exception unchanged — the
repository defines no `RetrievalError` wrapper — after logging an error
record carrying the exception text; the operation's time range appears
only in the pre-call info record, not in the failure record. -/
theorem fetch_ops_error_propagation (err : PyError) (s e : Datetime)
    (vb vt vm vd : Vendor)
    (hb : vb s.isoStr e.isoStr = Except.error err)
    (ht : vt s.isoStr e.isoStr = Except.error err)
    (hm : vm s.isoStr e.isoStr = Except.error err)
    (hd : vd s.dateStr e.dateStr = Except.error err) :
    fetch_data vb s e = (Except.error err,
      [LogEntry.info ("Fetching " ++ SYMBOL ++ " OHLCV data from " ++
        s.showStr ++ " to " ++ e.showStr),
       LogEntry.error ("Error fetching OHLCV data: " ++ pyStr err)]) ∧
    fetch_trades vt s e = (Except.error err,
      [LogEntry.info ("Fetching " ++ SYMBOL ++ " trades from " ++
        s.showStr ++ " to " ++ e.showStr),
       LogEntry.error ("Error fetching trades data: " ++ pyStr err)]) ∧
    fetch_mbp10 vm s e = (Except.error err,
      [LogEntry.info ("Fetching " ++ SYMBOL ++ " MBP-10 data from " ++
        s.showStr ++ " to " ++ e.showStr),
       LogEntry.error ("Error fetching MBP-10 data: " ++ pyStr err)]) ∧
    fetch_statistics vd s e = (Except.error err,
      [LogEntry.info ("Fetching " ++ SYMBOL ++ " statistics from " ++
        s.showStr ++ " to " ++ e.showStr),
       LogEntry.error ("Error fetching statistics data: " ++ pyStr err)]) := by
  refine ⟨?_, ?_, ?_, ?_⟩
  · simp only [fetch_data, hb]
    rfl
  · simp only [fetch_trades, ht]
    rfl
  · simp only [fetch_mbp10, hm]
    rfl
  · simp only [fetch_statistics, hd]
    rfl

/-- A vendor call that always raises, standing for a connection error
inside the Databento client. -/
def vendorBoom : Vendor :=
  fun _ _ => Except.error (PyError.vendorError "connection reset by peer")

/-- Witness for C1's amended theorem with the always-raising vendor on
the default time range. -/
theorem fetch_ops_error_propagation_witness :
    fetch_data vendorBoom DEFAULT_START_TIME DEFAULT_END_TIME =
      (Except.error (PyError.vendorError "connection reset by peer"),
      [LogEntry.info ("Fetching " ++ SYMBOL ++ " OHLCV data from " ++
        DEFAULT_START_TIME.showStr ++ " to " ++ DEFAULT_END_TIME.showStr),
       LogEntry.error ("Error fetching OHLCV data: " ++
         pyStr (PyError.vendorError "connection reset by peer"))]) ∧
    fetch_trades vendorBoom DEFAULT_START_TIME DEFAULT_END_TIME =
      (Except.error (PyError.vendorError "connection reset by peer"),
      [LogEntry.info ("Fetching " ++ SYMBOL ++ " trades from " ++
        DEFAULT_START_TIME.showStr ++ " to " ++ DEFAULT_END_TIME.showStr),
       LogEntry.error ("Error fetching trades data: " ++
         pyStr (PyError.vendorError "connection reset by peer"))]) ∧
    fetch_mbp10 vendorBoom DEFAULT_START_TIME DEFAULT_END_TIME =
      (Except.error (PyError.vendorError "connection reset by peer"),
      [LogEntry.info ("Fetching " ++ SYMBOL ++ " MBP-10 data from " ++
        DEFAULT_START_TIME.showStr ++ " to " ++ DEFAULT_END_TIME.showStr),
       LogEntry.error ("Error fetching MBP-10 data: " ++
         pyStr (PyError.vendorError "connection reset by peer"))]) ∧
    fetch_statistics vendorBoom DEFAULT_START_TIME DEFAULT_END_TIME =
      (Except.error (PyError.vendorError "connection reset by peer"),
      [LogEntry.info ("Fetching " ++ SYMBOL ++ " statistics from " ++
        DEFAULT_START_TIME.showStr ++ " to " ++ DEFAULT_END_TIME.showStr),
       LogEntry.error ("Error fetching statistics data: " ++
         pyStr (PyError.vendorError "connection reset by peer"))]) :=
  fetch_ops_error_propagation (PyError.vendorError "connection reset by peer")
    DEFAULT_START_TIME DEFAULT_END_TIME vendorBoom vendorBoom vendorBoom vendorBoom
    rfl rfl rfl rfl

/-- Counterexample to C1 as stated: on a failing vendor call the
surfaced error is the original exception, which is not a
`RetrievalError`, and the error-severity log record carries only the
exception text, not the operation's time range. -/
theorem fetch_ops_no_retrieval_error_cex :
    (fetch_data vendorBoom DEFAULT_START_TIME DEFAULT_END_TIME).1 =
      Except.error (PyError.vendorError "connection reset by peer") ∧
    (PyError.vendorError "connection reset by peer").isRetrievalError = false ∧
    ((fetch_data vendorBoom DEFAULT_START_TIME DEFAULT_END_TIME).2.getD 1
      (LogEntry.info "")).msg =
      "Error fetching OHLCV data: connection reset by peer" ∧
    strContains "Error fetching OHLCV data: connection reset by peer"
      DEFAULT_START_TIME.showStr = false ∧
    strContains "Error fetching OHLCV data: connection reset by peer"
      DEFAULT_END_TIME.showStr = false := by
  decide

theorem if_ts_indexVals (vf : DataFrame) :
    (if vf.hasCol "ts_event" then vf.set_index "ts_event" else vf).indexVals =
      (if vf.hasCol "ts_event" then vf.getCol "ts_event" else vf.indexVals) := by
  by_cases h : vf.hasCol "ts_event" = true
  · rw [if_pos h, if_pos h]
    rfl
  · rw [if_neg h, if_neg h]

/-- C2: a successful `fetch_data` call on a timezone-aware range with
start ≤ end returns a frame whose columns are exactly open, high, low,
close, volume in that order — any further vendor column is dropped —
and whose index is the parsed `ts_event` values (the `ts_event` column
when the vendor frame carries one, its index otherwise). -/
theorem fetch_bars_ohlcv_shape (vf df : DataFrame) (s e : Datetime)
    (lg : List LogEntry)
    (hs : s.tzAware = true) (he : e.tzAware = true)
    (hle : s.epochNs ≤ e.epochNs)
    (h : fetch_data (fun _ _ => Except.ok vf) s e = (Except.ok df, lg)) :
    df.colNames = keep_cols ∧
    (vf.hasCol "ts_event" = true →
      (vf.getCol "ts_event").mapM pdToDatetimeVal = Except.ok df.indexVals) ∧
    (vf.hasCol "ts_event" = false →
      vf.indexVals.mapM pdToDatetimeVal = Except.ok df.indexVals) := by
  simp only [fetch_data] at h
  split at h
  · cases (Prod.mk.injEq .. ▸ h).1
  · rename_i df1 hsel
    split at h
    · cases (Prod.mk.injEq .. ▸ h).1
    · rename_i df2 hpi
      obtain ⟨h1, -⟩ := Prod.mk.injEq .. ▸ h
      injection h1 with hdf
      subst hdf
      obtain ⟨hpc, -, hpm⟩ := parseIndex_ok hpi
      obtain ⟨hIv, -⟩ := selectCols_ok_index hsel
      refine ⟨?_, ?_, ?_⟩
      · have hnames : df2.colNames = df1.colNames := by
          simp only [DataFrame.colNames, hpc]
        rw [hnames, selectCols_ok_colNames hsel]
      · intro hts
        have hvals : df1.indexVals = vf.getCol "ts_event" := by
          rw [hIv, if_ts_indexVals, if_pos hts]
        rw [← hvals]
        exact hpm
      · intro hts
        have hvals : df1.indexVals = vf.indexVals := by
          rw [hIv, if_ts_indexVals, if_neg (by simp [hts])]
        rw [← hvals]
        exact hpm

/-- A two-row vendor OHLCV response carrying `ts_event` as a column and
an extra vendor column (`rtype`) that must be dropped. -/
def barsVendorFrame : DataFrame :=
  { indexName := none
    indexVals := [Value.int 0, Value.int 1]
    cols := [("rtype", [Value.int 32, Value.int 32]),
             ("ts_event", [Value.int 1742545800000000000,
               Value.int 1742545860000000000]),
             ("open", [Value.int 20100, Value.int 20150]),
             ("high", [Value.int 20200, Value.int 20250]),
             ("low", [Value.int 20000, Value.int 20100]),
             ("close", [Value.int 20150, Value.int 20200]),
             ("volume", [Value.int 1000, Value.int 1500])] }

/-- The frame `fetch_data` produces from `barsVendorFrame`. -/
def barsFetched : DataFrame :=
  match fetch_data (fun _ _ => Except.ok barsVendorFrame)
      DEFAULT_START_TIME DEFAULT_END_TIME with
  | (Except.ok df, _) => df
  | _ => barsVendorFrame

/-- Witness for C2 at `barsVendorFrame` on the default time range. -/
theorem fetch_bars_ohlcv_shape_witness :
    barsFetched.colNames = keep_cols ∧
    (barsVendorFrame.hasCol "ts_event" = true →
      (barsVendorFrame.getCol "ts_event").mapM pdToDatetimeVal =
        Except.ok barsFetched.indexVals) ∧
    (barsVendorFrame.hasCol "ts_event" = false →
      barsVendorFrame.indexVals.mapM pdToDatetimeVal =
        Except.ok barsFetched.indexVals) :=
  fetch_bars_ohlcv_shape barsVendorFrame barsFetched
    DEFAULT_START_TIME DEFAULT_END_TIME
    [LogEntry.info ("Fetching " ++ SYMBOL ++ " OHLCV data from " ++
      DEFAULT_START_TIME.showStr ++ " to " ++ DEFAULT_END_TIME.showStr),
     LogEntry.info "Successfully fetched 2 OHLCV records"]
    rfl rfl (by decide) (by decide)

theorem fetch_data_ok_indexName {vf df : DataFrame} {s e : Datetime}
    {lg : List LogEntry}
    (hts : vf.hasCol "ts_event" = true)
    (h : fetch_data (fun _ _ => Except.ok vf) s e = (Except.ok df, lg)) :
    df.indexName = some "ts_event" := by
  simp only [fetch_data] at h
  split at h
  · cases (Prod.mk.injEq .. ▸ h).1
  · rename_i df1 hsel
    split at h
    · cases (Prod.mk.injEq .. ▸ h).1
    · rename_i df2 hpi
      obtain ⟨h1, -⟩ := Prod.mk.injEq .. ▸ h
      injection h1 with hdf
      subst hdf
      obtain ⟨-, hpn, -⟩ := parseIndex_ok hpi
      obtain ⟨-, hIn⟩ := selectCols_ok_index hsel
      rw [hpn, hIn, if_pos hts]
      rfl

/-- C4 (amended): on a displayed result coming from `fetch_data`, the
download control's filename embeds the selected start and end dates, but
its CSV content is `df.to_csv()` without the rename that `save_to_csv`
applies, so the first header cell is the internal index name `ts_event`,
not the batch export's public name "timestamp"; the remaining header
cells are the displayed result's columns in order. -/
theorem streamlit_download_internal_name (vf df : DataFrame)
    (s e : Datetime) (lg : List LogEntry) (sd ed : String)
    (hts : vf.hasCol "ts_event" = true)
    (h : fetch_data (fun _ _ => Except.ok vf) s e = (Except.ok df, lg)) :
    (streamlitDownload df sd ed).1 =
      "nq_futures_data_" ++ sd ++ "_" ++ ed ++ ".csv" ∧
    (streamlitDownload df sd ed).2.header = "ts_event" :: df.colNames ∧
    ¬ (streamlitDownload df sd ed).2.header =
      "timestamp" :: df.colNames := by
  have hn := fetch_data_ok_indexName hts h
  refine ⟨rfl, ?_, ?_⟩
  · simp only [streamlitDownload, DataFrame.to_csv_withindex, hn]
    rfl
  · simp only [streamlitDownload, DataFrame.to_csv_withindex, hn]
    intro hcontra
    have := (List.cons.injEq .. ▸ hcontra).1
    simp at this

/-- Witness for C4's amended theorem at `barsVendorFrame` with the
default date range embedded in the filename. -/
theorem streamlit_download_internal_name_witness :
    (streamlitDownload barsFetched "2025-03-21" "2025-03-22").1 =
      "nq_futures_data_" ++ "2025-03-21" ++ "_" ++ "2025-03-22" ++ ".csv" ∧
    (streamlitDownload barsFetched "2025-03-21" "2025-03-22").2.header =
      "ts_event" :: barsFetched.colNames ∧
    ¬ (streamlitDownload barsFetched "2025-03-21" "2025-03-22").2.header =
      "timestamp" :: barsFetched.colNames :=
  streamlit_download_internal_name barsVendorFrame barsFetched
    DEFAULT_START_TIME DEFAULT_END_TIME
    [LogEntry.info ("Fetching " ++ SYMBOL ++ " OHLCV data from " ++
      DEFAULT_START_TIME.showStr ++ " to " ++ DEFAULT_END_TIME.showStr),
     LogEntry.info "Successfully fetched 2 OHLCV records"]
    "2025-03-21" "2025-03-22" (by decide) (by decide)

/-- The filesystem the batch path produces for the displayed fixture:
`save_to_csv` of `barsFetched` at `OUTPUT_FILE` from the empty
filesystem. -/
def batchExportFS : FS :=
  match save_to_csv fs0 barsFetched OUTPUT_FILE with
  | (Except.ok fs, _) => fs
  | _ => fs0

/-- Counterexample to C4 as stated: for the displayed result built from
`barsVendorFrame`, the download CSV's header starts with `ts_event`
while the batch export of the same result writes a header starting with
"timestamp", so the download is not of the same shape as the batch
export. -/
theorem streamlit_download_cex :
    (streamlitDownload barsFetched "2025-03-21" "2025-03-22").2.header =
      ["ts_event", "open", "high", "low", "close", "volume"] ∧
    ¬ (streamlitDownload barsFetched "2025-03-21" "2025-03-22").2.header =
      ["timestamp", "open", "high", "low", "close", "volume"] ∧
    Option.map Csv.header (batchExportFS.readFile OUTPUT_FILE) =
      some ["timestamp", "open", "high", "low", "close", "volume"] ∧
    (streamlitDownload barsFetched "2025-03-21" "2025-03-22").1 =
      "nq_futures_data_2025-03-21_2025-03-22.csv" := by
  decide

/-- C6: when the batch-mode fetch succeeds with zero rows, `run_cli`
writes nothing (the filesystem, in particular the configured output
path, is untouched), prints the no-data message, and the process ends
with exit code 0. -/
theorem run_cli_empty_result (vendor : Vendor) (fs : FS) (df : DataFrame)
    (lg : List LogEntry)
    (h : fetch_data vendor DEFAULT_START_TIME DEFAULT_END_TIME =
      (Except.ok df, lg))
    (hempty : df.nrows = 0) :
    run_cli vendor fs =
      { fs := fs, exitCode := 0
        stdout := ["No data available for the specified date range."]
        logs := lg } ∧
    (run_cli vendor fs).fs.readFile OUTPUT_FILE = fs.readFile OUTPUT_FILE := by
  have hmain : run_cli vendor fs =
      { fs := fs, exitCode := 0
        stdout := ["No data available for the specified date range."]
        logs := lg } := by
    unfold run_cli
    rw [h]
    simp [hempty]
  exact ⟨hmain, by rw [hmain]⟩

/-- A vendor response with the five OHLCV columns but no rows, as an
empty Databento frame for a range with no data. -/
def emptyBarsFrame : DataFrame :=
  { indexName := some "ts_event"
    indexVals := []
    cols := [("open", []), ("high", []), ("low", []), ("close", []),
             ("volume", [])] }

/-- A vendor call that returns the empty OHLCV frame. -/
def vendorEmptyBars : Vendor := fun _ _ => Except.ok emptyBarsFrame

/-- Witness for C6 with the empty-result vendor on the empty
filesystem. -/
theorem run_cli_empty_result_witness :
    run_cli vendorEmptyBars fs0 =
      { fs := fs0, exitCode := 0
        stdout := ["No data available for the specified date range."]
        logs := [LogEntry.info ("Fetching " ++ SYMBOL ++ " OHLCV data from " ++
            DEFAULT_START_TIME.showStr ++ " to " ++ DEFAULT_END_TIME.showStr),
          LogEntry.info "Successfully fetched 0 OHLCV records"] } ∧
    (run_cli vendorEmptyBars fs0).fs.readFile OUTPUT_FILE =
      fs0.readFile OUTPUT_FILE :=
  run_cli_empty_result vendorEmptyBars fs0 emptyBarsFrame
    [LogEntry.info ("Fetching " ++ SYMBOL ++ " OHLCV data from " ++
        DEFAULT_START_TIME.showStr ++ " to " ++ DEFAULT_END_TIME.showStr),
     LogEntry.info "Successfully fetched 0 OHLCV records"]
    (by decide) (by decide)

theorem ts_pipeline_ok {vf df : DataFrame}
    (h : (if vf.hasCol "ts_event" then vf.set_index "ts_event" else vf).parseIndex
      = Except.ok df) :
    df.cols = (if vf.hasCol "ts_event" then
      vf.cols.filter (fun c => ¬ c.1 = "ts_event") else vf.cols) ∧
    (vf.hasCol "ts_event" = true →
      (vf.getCol "ts_event").mapM pdToDatetimeVal = Except.ok df.indexVals) ∧
    (vf.hasCol "ts_event" = false →
      vf.indexVals.mapM pdToDatetimeVal = Except.ok df.indexVals) := by
  obtain ⟨hpc, -, hpm⟩ := parseIndex_ok h
  refine ⟨?_, ?_, ?_⟩
  · rw [hpc]
    by_cases hts : vf.hasCol "ts_event" = true
    · rw [if_pos hts, if_pos hts]
      rfl
    · rw [if_neg hts, if_neg hts]
  · intro hts
    have hvals : (if vf.hasCol "ts_event" then vf.set_index "ts_event"
        else vf).indexVals = vf.getCol "ts_event" := by
      rw [if_ts_indexVals, if_pos hts]
    rw [← hvals]
    exact hpm
  · intro hts
    have hvals : (if vf.hasCol "ts_event" then vf.set_index "ts_event"
        else vf).indexVals = vf.indexVals := by
      rw [if_ts_indexVals, if_neg (by simp [hts])]
    rw [← hvals]
    exact hpm

/-- C8: successful `fetch_trades` and `fetch_mbp10` calls return the
vendor frame with its columns and values passed through unmodified —
only the `ts_event` column, when present, is promoted out of the
columns to become the index — indexed by the parsed event timestamps;
both schemas run the identical pipeline, so on one vendor frame they
agree. -/
theorem fetch_trades_mbp10_passthrough (vf dft dfm : DataFrame)
    (s e : Datetime) (lgt lgm : List LogEntry)
    (ht : fetch_trades (fun _ _ => Except.ok vf) s e = (Except.ok dft, lgt))
    (hm : fetch_mbp10 (fun _ _ => Except.ok vf) s e = (Except.ok dfm, lgm)) :
    dft.cols = (if vf.hasCol "ts_event" then
      vf.cols.filter (fun c => ¬ c.1 = "ts_event") else vf.cols) ∧
    (vf.hasCol "ts_event" = true →
      (vf.getCol "ts_event").mapM pdToDatetimeVal = Except.ok dft.indexVals) ∧
    (vf.hasCol "ts_event" = false →
      vf.indexVals.mapM pdToDatetimeVal = Except.ok dft.indexVals) ∧
    dfm = dft := by
  simp only [fetch_trades] at ht
  simp only [fetch_mbp10] at hm
  split at ht
  · cases (Prod.mk.injEq .. ▸ ht).1
  · rename_i dft1 hpit
    obtain ⟨ht1, -⟩ := Prod.mk.injEq .. ▸ ht
    injection ht1 with hdft
    subst hdft
    split at hm
    · cases (Prod.mk.injEq .. ▸ hm).1
    · rename_i dfm1 hpim
      obtain ⟨hm1, -⟩ := Prod.mk.injEq .. ▸ hm
      injection hm1 with hdfm
      subst hdfm
      obtain ⟨hc, hi1, hi2⟩ := ts_pipeline_ok hpit
      rw [hpit] at hpim
      injection hpim with hsame
      exact ⟨hc, hi1, hi2, hsame.symm⟩

/-- A one-row vendor trades response: `ts_event` as a column plus
trade-level fields (price, size, side). -/
def tradesVendorFrame : DataFrame :=
  { indexName := none
    indexVals := [Value.int 0]
    cols := [("ts_event", [Value.int 1742545800000000000]),
             ("price", [Value.int 20100]), ("size", [Value.int 3]),
             ("side", [Value.str "A"])] }

/-- The frame `fetch_trades` produces from `tradesVendorFrame`. -/
def tradesFetched : DataFrame :=
  match fetch_trades (fun _ _ => Except.ok tradesVendorFrame)
      DEFAULT_START_TIME DEFAULT_END_TIME with
  | (Except.ok df, _) => df
  | _ => tradesVendorFrame

/-- Witness for C8 at `tradesVendorFrame` on the default time range. -/
theorem fetch_trades_mbp10_passthrough_witness :
    tradesFetched.cols = (if tradesVendorFrame.hasCol "ts_event" then
      tradesVendorFrame.cols.filter (fun c => ¬ c.1 = "ts_event")
      else tradesVendorFrame.cols) ∧
    (tradesVendorFrame.hasCol "ts_event" = true →
      (tradesVendorFrame.getCol "ts_event").mapM pdToDatetimeVal =
        Except.ok tradesFetched.indexVals) ∧
    (tradesVendorFrame.hasCol "ts_event" = false →
      tradesVendorFrame.indexVals.mapM pdToDatetimeVal =
        Except.ok tradesFetched.indexVals) ∧
    tradesFetched = tradesFetched :=
  fetch_trades_mbp10_passthrough tradesVendorFrame tradesFetched tradesFetched
    DEFAULT_START_TIME DEFAULT_END_TIME
    [LogEntry.info ("Fetching " ++ SYMBOL ++ " trades from " ++
        DEFAULT_START_TIME.showStr ++ " to " ++ DEFAULT_END_TIME.showStr),
     LogEntry.info "Successfully fetched 1 trade records"]
    [LogEntry.info ("Fetching " ++ SYMBOL ++ " MBP-10 data from " ++
        DEFAULT_START_TIME.showStr ++ " to " ++ DEFAULT_END_TIME.showStr),
     LogEntry.info "Successfully fetched 1 MBP-10 records"]
    (by decide) (by decide)

/-- C10: `fetch_data` succeeds only when the vendor frame carries all
five OHLCV columns; when any is missing — a zero-row vendor result with
no columns included — the column selection raises a `KeyError` naming
the missing columns and that exception propagates to the caller. -/
theorem fetch_bars_requires_ohlcv_columns (vf df : DataFrame)
    (s e : Datetime) (lg : List LogEntry) :
    (fetch_data (fun _ _ => Except.ok vf) s e = (Except.ok df, lg) →
      keep_cols.all (fun k => vf.hasCol k) = true) ∧
    (keep_cols.all (fun k => vf.hasCol k) = false →
      (fetch_data (fun _ _ => Except.ok vf) s e).1 =
        Except.error (PyError.keyError
          (keep_cols.filter (fun k => ¬ vf.hasCol k)))) := by
  have hinv : ∀ k ∈ keep_cols,
      (if vf.hasCol "ts_event" then vf.set_index "ts_event" else vf).hasCol k
        = vf.hasCol k := by
    intro k hk
    by_cases hts : vf.hasCol "ts_event" = true
    · rw [if_pos hts]
      apply set_index_hasCol
      fin_cases hk <;> decide
    · rw [if_neg hts]
  constructor
  · intro h
    simp only [fetch_data] at h
    split at h
    · cases (Prod.mk.injEq .. ▸ h).1
    · rename_i df1 hsel
      rw [List.all_eq_true]
      intro k hk
      rw [← hinv k hk]
      exact selectCols_ok_hasCol hsel k hk
  · intro hmiss
    have hfil : keep_cols.filter (fun k =>
        ¬ (if vf.hasCol "ts_event" then vf.set_index "ts_event" else vf).hasCol k)
        = keep_cols.filter (fun k => ¬ vf.hasCol k) := by
      apply List.filter_congr
      intro k hk
      rw [hinv k hk]
    have hne : ¬ keep_cols.filter (fun k =>
        ¬ (if vf.hasCol "ts_event" then vf.set_index "ts_event" else vf).hasCol k)
        = [] := by
      rw [hfil]
      rw [List.all_eq_false] at hmiss
      obtain ⟨k, hk, hkf⟩ := hmiss
      intro hnil
      have : k ∈ keep_cols.filter (fun k => ¬ vf.hasCol k) := by
        rw [List.mem_filter]
        exact ⟨hk, by simp [hkf]⟩
      rw [hnil] at this
      cases this
    have hsel := selectCols_missing hne
    simp only [fetch_data, hsel, hfil]
